import Mathlib

/-!
Verification development for the pdfme text-layout engine
(src/pdfme/text.py and src/pdfme/pdf.py), shallowly embedded in Lean 4.

Numbers: Python floats are modelled by exact rationals (ℚ).  Python
exceptions (KeyError, IndexError, AttributeError, TypeError, Exception)
are modelled by `Except String`.  Python dicts used as association
tables are modelled by association lists; Python `set` objects by
duplicate-free lists built with `insertIfAbsent`.

The modules color.py, utils.py and standard_fonts.py are imported by
text.py but are not part of the sources; the few objects taken from
them (PDFColor, parse_style_str, process_style, default) are modelled
from the spec, each marked `Modelled from the spec:` in its doc string.
-/

namespace Pdfme

/-- Reduction of an Except bind on a success value (used throughout the
proofs to step the monadic embedding). -/
@[simp] theorem okBind {α β : Type} (a : α) (f : α → Except String β) :
    (Except.ok a : Except String α) >>= f = f a := rfl

/-- Reduction of an Except bind on an error value. -/
@[simp] theorem errorBind {α β : Type} (e : String) (f : α → Except String β) :
    (Except.error e : Except String α) >>= f = Except.error e := rfl

/-- Except pure is ok. -/
@[simp] theorem pureOk {α : Type} (a : α) :
    (pure a : Except String α) = Except.ok a := rfl

/-- Association-list lookup, modelling Python `d[k]` / `k in d` on a dict. -/
def alistGet {α : Type} (l : List (String × α)) (k : String) : Option α :=
  (l.find? (fun p => p.1 = k)).map (fun p => p.2)

/-- Association-list lookup with `Char` keys (per-character width tables). -/
def alistGetC {α : Type} (l : List (Char × α)) (k : Char) : Option α :=
  (l.find? (fun p => p.1 = k)).map (fun p => p.2)

/-- Python dict item access `d[k]`: raises KeyError when the key is absent. -/
def orKeyErr {α : Type} (o : Option α) : Except String α :=
  match o with
  | some a => .ok a
  | none => .error "KeyError"

/-- Python sequence indexing: raises IndexError when out of range. -/
def orIndexErr {α : Type} (o : Option α) : Except String α :=
  match o with
  | some a => .ok a
  | none => .error "IndexError: list index out of range"

/-- Python attribute access on a never-assigned attribute: AttributeError. -/
def orAttrErr {α : Type} (msg : String) (o : Option α) : Except String α :=
  match o with
  | some a => .ok a
  | none => .error ("AttributeError: " ++ msg)

/-- Python `set.add`: append the element only when it is not yet present. -/
def insertIfAbsent {α : Type} [DecidableEq α] (l : List α) (a : α) : List α :=
  if a ∈ l then l else l ++ [a]

/-- Python `list.remove`: drop the first element equal to `a` (the callers in
text.py only remove elements that are present, so the not-found ValueError
branch is never taken). -/
def eraseFirst {α : Type} [DecidableEq α] : List α → α → List α
  | [], _ => []
  | x :: xs, a => if x = a then xs else x :: eraseFirst xs a

/-- Replace the last element of a list (in-place mutation of the object that
is known to sit at the end of the list). -/
def setLast {α : Type} (l : List α) (a : α) : List α :=
  l.dropLast ++ [a]

/-- Mutate the last element of a list through a fallible operation, raising
IndexError on an empty list (Python `l[-1].f(...)`). -/
def modifyLastE {α : Type} (l : List α) (f : α → Except String α) :
    Except String (List α) :=
  match l.getLast? with
  | none => .error "IndexError: list index out of range"
  | some x => do
    let y ← f x
    pure (l.dropLast ++ [y])

/-- Python `round(x, 3)`: round to a multiple of 1/1000, ties to even. -/
def pyRound3 (q : ℚ) : ℚ :=
  let r : ℚ := q * 1000
  let n : ℤ := ⌊r⌋
  let f : ℚ := r - (n : ℚ)
  let m : ℤ :=
    if f < 1/2 then n
    else if 1/2 < f then n + 1
    else if n % 2 = 0 then n else n + 1
  (m : ℚ) / 1000

/-- Decimal rendering of a rational in the emitted operator strings.  The
exact numeral syntax of Python's `str` on floats is abstracted; no claim
depends on the rendering, only on which directives appear. -/
def fmtQ (q : ℚ) : String :=
  if q.den = 1 then toString q.num else toString q.num ++ "/" ++ toString q.den

/-- Python `str.isspace`: nonempty and all characters whitespace. -/
def pyIsspace (s : String) : Bool :=
  !s.isEmpty && s.toList.all (fun c => c.isWhitespace)

/-- Modelled from the spec: `default(a, b)` from the missing utils.py returns
`b` when `a` is None else `a` (used for optional constructor arguments). -/
def pyDefault {α : Type} (a : Option α) (b : α) : α :=
  a.getD b

/-- Truthiness of an optional string (Python `if self.list_text:`): None and
the empty string are falsy. -/
def truthyStr : Option String → Bool
  | none => false
  | some s => s ≠ ""

/-- A font variant entry of the fonts table: output reference name and the
per-character advance-width table in 1000-unit em space (a Python dict,
modelled as an association list). -/
structure FontEntry where
  ref : String
  widths : List (Char × ℚ)
deriving DecidableEq

/-- The fonts table: family name to variant-mode (n/b/i/bi) to entry. -/
abbrev Fonts := List (String × List (String × FontEntry))

/-- Modelled from the spec: class PDFColor from the missing color.py.  A color
value (grayscale, possibly None) with a stroke flag; structural equality;
`str` renders the fill or stroke gray directive. -/
structure PDFColor where
  color : Option ℚ
  stroke : Bool
deriving DecidableEq

/-- Modelled from the spec: PDFColor constructor from a raw value. -/
def PDFColor.make (v : Option ℚ) (stroke : Bool := false) : PDFColor :=
  ⟨v, stroke⟩

/-- Modelled from the spec: PDFColor constructor from another color, used as
`PDFColor(part.state.color, True)` for underline strokes. -/
def PDFColor.ofColor (c : PDFColor) (stroke : Bool) : PDFColor :=
  ⟨c.color, stroke⟩

/-- Modelled from the spec: `str(color)`, the color-set directive text. -/
def PDFColor.str (c : PDFColor) : String :=
  match c.color with
  | none => ""
  | some v => fmtQ v ++ (if c.stroke then " G" else " g")

/-- A Python style dict.  Every key is optional, mirroring dict key presence;
`bg` present with value None is `some none`. -/
structure StyleD where
  f : Option String := none
  b : Option Bool := none
  i : Option Bool := none
  s : Option ℚ := none
  c : Option ℚ := none
  r : Option ℚ := none
  bg : Option (Option ℚ) := none
  u : Option Bool := none
deriving DecidableEq

/-- Python `base.update(upd)` on style dicts: keys present in `upd` win. -/
def updateStyle (base upd : StyleD) : StyleD where
  f := upd.f.orElse fun _ => base.f
  b := upd.b.orElse fun _ => base.b
  i := upd.i.orElse fun _ => base.i
  s := upd.s.orElse fun _ => base.s
  c := upd.c.orElse fun _ => base.c
  r := upd.r.orElse fun _ => base.r
  bg := upd.bg.orElse fun _ => base.bg
  u := upd.u.orElse fun _ => base.u

/-- TEXT_DEFAULTS from text.py. -/
def TEXT_DEFAULTS : StyleD :=
  { f := some "Helvetica", c := some (1/10), s := some 11, r := some 0,
    bg := some none }

/-- PARAGRAPH_DEFAULTS text_align. -/
def PARAGRAPH_TEXT_ALIGN : String := "l"

/-- PARAGRAPH_DEFAULTS line_height (1.1). -/
def PARAGRAPH_LINE_HEIGHT : ℚ := 11/10

/-- Modelled from the spec: `parse_style_str` from the missing utils.py parses
a style-shorthand string (tokens separated by semicolons: bold, italic,
underline flags, `f:<family>`, `s:<size>`) into a style dict.  The claims only
exercise the empty string, which yields the empty dict. -/
def parse_style_str (s : String) (_fonts : Fonts) : StyleD :=
  (s.splitOn ";").foldl
    (fun st tok =>
      if tok = "" then st
      else if tok = "b" then { st with b := some true }
      else if tok = "i" then { st with i := some true }
      else if tok = "u" then { st with u := some true }
      else if tok.startsWith "f:" then { st with f := some (tok.drop 2) }
      else if tok.startsWith "s:" then
        match (tok.drop 2).toNat? with
        | some n => { st with s := some (n : ℚ) }
        | none => st
      else st)
    {}

/-- Modelled from the spec: `process_style` from the missing utils.py
normalises an optional style attribute into a style dict. -/
def process_style (s : Option StyleD) : StyleD :=
  s.getD {}

/-- PDFState (text.py lines 13-31): the resolved font/color/rise state of a
style dict.  Construction raises KeyError when a required style key or the
font family is missing, like the Python subscripting would. -/
structure PDFState where
  fonts : Fonts
  font_family : String
  font_mode : String
  size : ℚ
  color : PDFColor
  rise : ℚ
deriving DecidableEq

/-- PDFState.__init__ on a style dict and a fonts table. -/
def PDFState.make (style : StyleD) (fonts : Fonts) : Except String PDFState := do
  let font_family ← orKeyErr style.f
  let f_mode0 : String :=
    (if style.b.getD false then "b" else "") ++ (if style.i.getD false then "i" else "")
  let f_mode := if f_mode0 = "" then "n" else f_mode0
  let famTable ← orKeyErr (alistGet fonts font_family)
  let font_mode := if (alistGet famTable f_mode).isNone then "n" else f_mode
  let size ← orKeyErr style.s
  let c ← orKeyErr style.c
  pure { fonts := fonts, font_family := font_family, font_mode := font_mode,
         size := size, color := PDFColor.make (some c),
         rise := (style.r.getD 0) * size }

/-- Lookup of the font entry a state resolves to
(`self.fonts[self.font_family][self.font_mode]`). -/
def PDFState.fontEntry (a : PDFState) : Option FontEntry :=
  (alistGet a.fonts a.font_family).bind (fun fam => alistGet fam a.font_mode)

/-- PDFState.compare (text.py lines 33-48): the directive fragment needed to
transition from `other` (None meaning no prior state) to `a`. -/
def PDFState.compare (a : PDFState) (other : Option PDFState) :
    Except String String := do
  let ret0 : String := ""
  let needFont : Bool :=
    match other with
    | none => true
    | some o =>
      decide (a.font_family ≠ o.font_family) || decide (a.font_mode ≠ o.font_mode)
        || decide (a.size ≠ o.size)
  let ret1 ←
    if needFont then do
      let famTable ← orKeyErr (alistGet a.fonts a.font_family)
      let entry ← orKeyErr (alistGet famTable a.font_mode)
      pure (ret0 ++ (" /" ++ entry.ref ++ " " ++ fmtQ (pyRound3 a.size) ++ " Tf"))
    else pure ret0
  let needColor : Bool :=
    match other with
    | none => true
    | some o => decide (a.color ≠ o.color)
  let ret2 := if needColor then ret1 ++ (" " ++ a.color.str) else ret1
  let needRise : Bool :=
    match other with
    | none => true
    | some o => decide (a.rise ≠ o.rise)
  let ret3 :=
    if needRise then ret2 ++ (" " ++ fmtQ (pyRound3 a.rise) ++ " Ts") else ret2
  pure ret3

/-- PDFTextLinePart (text.py lines 51-99): words of one style run inside one
line, with separate word-width and space-width accounting.

Note on `ids`: the source line 60 reads `self.ids = [] if id is None else ids`;
`id` is the Python builtin function, which is never None, so the attribute is
always the `ids` argument as passed (possibly None). -/
structure PDFTextLinePart where
  fonts : Fonts
  style : StyleD
  state : PDFState
  underline : Bool
  background : PDFColor
  ids : Option (List String)
  width : ℚ
  words : List String
  space_width : ℚ
  spaces_width : ℚ
deriving DecidableEq

/-- `self.fonts[self.state.font_family][self.state.font_mode]['widths'][char]`
scaled by size over 1000 (text.py lines 94-96). -/
def PDFTextLinePart.get_char_width (p : PDFTextLinePart) (c : Char) :
    Except String ℚ := do
  let famTable ← orKeyErr (alistGet p.fonts p.state.font_family)
  let entry ← orKeyErr (alistGet famTable p.state.font_mode)
  let w ← orKeyErr (alistGetC entry.widths c)
  pure (p.state.size * w / 1000)

/-- Sum of character widths over a word (text.py lines 98-99). -/
def PDFTextLinePart.get_word_width (p : PDFTextLinePart) (word : String) :
    Except String ℚ :=
  word.toList.foldlM (fun acc c => do pure (acc + (← p.get_char_width c))) 0

/-- PDFTextLinePart.__init__ (text.py lines 52-65). -/
def PDFTextLinePart.make (style : StyleD) (fonts : Fonts)
    (ids : Option (List String)) : Except String PDFTextLinePart := do
  let state ← PDFState.make style fonts
  let p0 : PDFTextLinePart :=
    { fonts := fonts, style := style, state := state,
      underline := style.u.getD false,
      background := PDFColor.make (style.bg.getD none),
      ids := ids, width := 0, words := [], space_width := 0, spaces_width := 0 }
  let sw ← p0.get_char_width ' '
  pure { p0 with space_width := sw }

/-- PDFTextLinePart.add_word (text.py lines 78-84): append the token and add
its width to the space or word accumulator. -/
def PDFTextLinePart.add_word (p : PDFTextLinePart) (word : String) :
    Except String PDFTextLinePart := do
  let ws := p.words ++ [word]
  if word = " " then
    pure { p with words := ws, spaces_width := p.spaces_width + p.space_width }
  else do
    let ww ← p.get_word_width word
    pure { p with words := ws, width := p.width + ww }

/-- PDFTextLinePart.pop_word (text.py lines 67-76): remove and return the last
token (or the token at `index`), subtracting its width; on an empty word list
return None and leave the part unchanged. -/
def PDFTextLinePart.pop_word (p : PDFTextLinePart) (index : Option Int) :
    Except String (Option String × PDFTextLinePart) :=
  if p.words.length > 0 then
    match index with
    | none =>
      match p.words.getLast? with
      | none => .error "IndexError: pop from empty list"
      | some w =>
        let ws := p.words.dropLast
        if w = " " then
          pure (some w, { p with words := ws, spaces_width := p.spaces_width - p.space_width })
        else do
          let ww ← p.get_word_width w
          pure (some w, { p with words := ws, width := p.width - ww })
    | some j =>
      let idx : Int := if j < 0 then (p.words.length : Int) + j else j
      if idx < 0 then .error "IndexError: pop index out of range" else
      let i : Nat := idx.toNat
      match p.words.get? i with
      | none => .error "IndexError: pop index out of range"
      | some w =>
        let ws := p.words.take i ++ p.words.drop (i + 1)
        if w = " " then
          pure (some w, { p with words := ws, spaces_width := p.spaces_width - p.space_width })
        else do
          let ww ← p.get_word_width w
          pure (some w, { p with words := ws, width := p.width - ww })
  else
    pure (none, p)

/-- PDFTextLinePart.current_width (text.py lines 86-87). -/
def PDFTextLinePart.current_width (p : PDFTextLinePart) (factor : ℚ) : ℚ :=
  p.width + p.spaces_width * factor

/-- PDFTextLinePart.tentative_width (text.py lines 89-92). -/
def PDFTextLinePart.tentative_width (p : PDFTextLinePart) (word : String)
    (factor : ℚ) : Except String ℚ := do
  let word_width ←
    if word = " " then pure (p.space_width * factor) else p.get_word_width word
  pure (p.current_width factor + word_width)

/-- PDFTextLine (text.py lines 101-225).  The Python class is self-referential
(`next_line` holds the one-line lookahead buffer, itself a PDFTextLine), so it
is embedded as a nested inductive; the field order follows `__init__`. -/
inductive PDFTextLine : Type where
  | mk (fonts : Fonts) (max_width : ℚ) (text_align : String) (line_height : ℚ)
       (top_margin : ℚ) (line_parts : List PDFTextLinePart)
       (justify_min_factor : ℚ) (is_last_word_space : Bool)
       (firstWordAdded : Bool) (started : Bool) (next_line : Option PDFTextLine)

def PDFTextLine.fonts : PDFTextLine → Fonts
  | .mk v _ _ _ _ _ _ _ _ _ _ => v

def PDFTextLine.max_width : PDFTextLine → ℚ
  | .mk _ v _ _ _ _ _ _ _ _ _ => v

def PDFTextLine.text_align : PDFTextLine → String
  | .mk _ _ v _ _ _ _ _ _ _ _ => v

def PDFTextLine.line_height : PDFTextLine → ℚ
  | .mk _ _ _ v _ _ _ _ _ _ _ => v

def PDFTextLine.top_margin : PDFTextLine → ℚ
  | .mk _ _ _ _ v _ _ _ _ _ _ => v

def PDFTextLine.line_parts : PDFTextLine → List PDFTextLinePart
  | .mk _ _ _ _ _ v _ _ _ _ _ => v

def PDFTextLine.justify_min_factor : PDFTextLine → ℚ
  | .mk _ _ _ _ _ _ v _ _ _ _ => v

def PDFTextLine.is_last_word_space : PDFTextLine → Bool
  | .mk _ _ _ _ _ _ _ v _ _ _ => v

def PDFTextLine.firstWordAdded : PDFTextLine → Bool
  | .mk _ _ _ _ _ _ _ _ v _ _ => v

def PDFTextLine.started : PDFTextLine → Bool
  | .mk _ _ _ _ _ _ _ _ _ v _ => v

def PDFTextLine.next_line : PDFTextLine → Option PDFTextLine
  | .mk _ _ _ _ _ _ _ _ _ _ v => v

/-- Replace the `line_parts` field (Python `line.line_parts = ...`). -/
def PDFTextLine.withParts : PDFTextLine → List PDFTextLinePart → PDFTextLine
  | .mk fo mw ta lh tm _ jmf ilws fwa st nx, ps =>
    .mk fo mw ta lh tm ps jmf ilws fwa st nx

/-- PDFTextLine.__init__ (text.py lines 102-121): fresh line with the given
fonts, maximal width, alignment and line height (both defaulted from
PARAGRAPH_DEFAULTS when None) and top margin. -/
def PDFTextLine.new (fonts : Fonts) (max_width : ℚ) (text_align : Option String)
    (line_height : Option ℚ) (top_margin : ℚ) : PDFTextLine :=
  .mk fonts max_width (pyDefault text_align PARAGRAPH_TEXT_ALIGN)
    (pyDefault line_height PARAGRAPH_LINE_HEIGHT) top_margin [] (7/10)
    true false false none

/-- PDFTextLine.height (text.py lines 123-133): tallest part size plus the top
margin plus the largest positive rise. -/
def PDFTextLine.height (l : PDFTextLine) : ℚ :=
  let tp := l.line_parts.foldl
    (fun (acc : ℚ × ℚ) part =>
      let top := if part.state.rise > 0 ∧ part.state.rise > acc.1
        then part.state.rise else acc.1
      let h := if part.state.size > acc.2 then part.state.size else acc.2
      (top, h))
    (0, 0)
  tp.2 + l.top_margin + tp.1

/-- PDFTextLine.bottom (text.py lines 144-150): largest descender magnitude. -/
def PDFTextLine.bottom (l : PDFTextLine) : ℚ :=
  l.line_parts.foldl
    (fun acc part =>
      if part.state.rise < 0 ∧ -part.state.rise > acc then -part.state.rise else acc)
    0

/-- PDFTextLine.get_widths (text.py lines 152-158): summed word widths and
summed space widths over the parts. -/
def PDFTextLine.get_widths (l : PDFTextLine) : ℚ × ℚ :=
  l.line_parts.foldl
    (fun (acc : ℚ × ℚ) part => (acc.1 + part.width, acc.2 + part.spaces_width))
    (0, 0)

/-- PDFTextLine.factor (text.py lines 140-142): 1 unless justifying, else the
minimal justification factor. -/
def PDFTextLine.factor (l : PDFTextLine) : ℚ :=
  if l.text_align ≠ "j" then 1 else l.justify_min_factor

/-- PDFTextLine.min_width (text.py lines 135-138). -/
def PDFTextLine.min_width (l : PDFTextLine) : ℚ :=
  let ws := l.get_widths
  ws.1 + ws.2 * l.factor

/-- All committed word tokens of a line, in order (observation helper). -/
def PDFTextLine.lineWords (l : PDFTextLine) : List String :=
  l.line_parts.foldl (fun acc part => acc ++ part.words) []

/-- PDFTextLine.add_line_part (text.py lines 160-168): create the lookahead
line when missing and append a fresh part for the given style to it. -/
def PDFTextLine.add_line_part (l : PDFTextLine) (style : StyleD)
    (ids : Option (List String)) :
    Except String (PDFTextLinePart × PDFTextLine) :=
  match l with
  | .mk fo mw ta lh tm ps jmf ilws fwa st nx => do
    let nl := match nx with
      | none => PDFTextLine.new fo mw (some ta) (some lh) 0
      | some n => n
    let part ← PDFTextLinePart.make style fo ids
    let nl2 := nl.withParts (nl.line_parts ++ [part])
    pure (part, .mk fo mw ta lh tm ps jmf ilws fwa st (some nl2))

/-- PDFTextLine.add_accumulated (text.py lines 170-176): promote the lookahead
parts into the committed parts, append a space token to the now-last part, and
reset the lookahead to one fresh part of the same style and ids. -/
def PDFTextLine.add_accumulated (l : PDFTextLine) : Except String PDFTextLine :=
  match l with
  | .mk fo mw ta lh tm ps jmf ilws fwa st nx => do
    let nl ← orAttrErr "NoneType object has no attribute line_parts" nx
    let ps2 := ps ++ nl.line_parts
    match ps2.getLast? with
    | none => .error "IndexError: list index out of range"
    | some last => do
      let last2 ← last.add_word " "
      let ps3 := ps2.dropLast ++ [last2]
      let fresh ← PDFTextLinePart.make last2.style fo last2.ids
      pure (.mk fo mw ta lh tm ps3 jmf ilws fwa st (some (nl.withParts [fresh])))

/-- Result dict of PDFTextLine.add_word: a status string, and for status
finished also the new current line. -/
inductive AddWordResult : Type where
  | ignored
  | added
  | preadded
  | finished (new_line : PDFTextLine)

/-- The status string of an add_word result. -/
def AddWordResult.status : AddWordResult → String
  | .ignored => "ignored"
  | .added => "added"
  | .preadded => "preadded"
  | .finished _ => "finished"

/-- PDFTextLine.add_word (text.py lines 178-225): the wrap step.  Before the
line is started, spaces are dropped until a first word exists and the first
following space starts the line; once started, a space promotes the lookahead
(unless the last accepted token was already a space per the
`is_last_word_space` flag) and a word is appended to the lookahead and width-
checked, either staying tentative (preadded) or finishing the line: the
committed trailing space is popped, and the lookahead contents seed the new
line handed back to the caller. -/
def PDFTextLine.add_word (l : PDFTextLine) (word : String) (new_width : ℚ) :
    Except String (AddWordResult × PDFTextLine) :=
  match l with
  | .mk fo mw ta lh tm ps jmf ilws fwa st nx =>
    match nx with
    | none => .error
        "Exception: You have to add a line_part, using method add_line_part to this line, before adding a word"
    | some nl =>
      if ¬ st then
        if pyIsspace word then
          if fwa then do
            let l2 : PDFTextLine := .mk fo mw ta lh tm ps jmf ilws fwa true (some nl)
            let l3 ← l2.add_accumulated
            pure (.added, l3)
          else pure (.ignored, l)
        else do
          let nlp ← modifyLastE nl.line_parts (fun p => p.add_word word)
          pure (.added, .mk fo mw ta lh tm ps jmf ilws true st (some (nl.withParts nlp)))
      else
        if pyIsspace word then
          if ilws then pure (.ignored, l)
          else do
            let l2 ← l.add_accumulated
            pure (.added, l2)
        else do
          let nlp ← modifyLastE nl.line_parts (fun p => p.add_word word)
          let nl2 := nl.withParts nlp
          let l2 : PDFTextLine := .mk fo mw ta lh tm ps jmf false fwa st (some nl2)
          if l2.min_width + nl2.min_width < mw then pure (.preadded, l2)
          else do
            let lastPart ← orIndexErr ps.getLast?
            let ps2 ←
              if lastPart.words.length ≠ 0 ∧ lastPart.words.getLast? = some " " then do
                let (_, lastPart2) ← lastPart.pop_word (some (-1))
                pure (ps.dropLast ++ [lastPart2])
              else pure ps
            let fresh := PDFTextLine.new fo new_width (some ta) (some lh) 0
            let freshWithParts := fresh.withParts nl2.line_parts
            let newLine : PDFTextLine :=
              .mk nl2.fonts nl2.max_width nl2.text_align nl2.line_height
                (PDFTextLine.bottom (.mk fo mw ta lh tm ps2 jmf false fwa st none))
                [] nl2.justify_min_factor nl2.is_last_word_space true
                nl2.started (some freshWithParts)
            let l3 : PDFTextLine :=
              .mk fo mw ta lh tm ps2 jmf false fwa st (some newLine)
            pure (.finished newLine, l3)

/-- Group the characters of a string into maximal runs of spaces and runs of
non-spaces, modelling `re.split('( +)', words)` with empty strings dropped. -/
def splitRuns (l : List Char) : List (List Char) :=
  l.foldr
    (fun c acc =>
      match acc with
      | [] => [[c]]
      | g :: gs =>
        match g with
        | [] => [c] :: gs
        | d :: _ =>
          if ((c == ' ') == (d == ' ')) then (c :: g) :: gs else [c] :: g :: gs)
    []

/-- Tokenisation of a text string (text.py lines 360-365): split keeping the
space groups, drop empties, and replace every all-whitespace group by a single
space token. -/
def tokenize (s : String) : List String :=
  (splitRuns s.toList).map
    (fun g => if pyIsspace (String.mk g) then " " else String.mk g)

/-- The value of a content part's `text` key: a raw string, or the token list
the string is replaced by in place on first tokenisation. -/
inductive TextVal : Type where
  | str (s : String)
  | toks (l : List String)
deriving DecidableEq

/-- One element of `PDFTextBase.content`: a dict with optional `type` (only
`br` is meaningful), `style`, `ids` and `text` keys. -/
structure ContentPart where
  type : Option String := none
  style : Option StyleD := none
  ids : Option (List String) := none
  text : Option TextVal := none
deriving DecidableEq

/-- The `content` constructor argument of PDFTextBase: a plain string or a
list of part dicts (any other type raises TypeError in the source and is not
representable here). -/
inductive ContentInput : Type where
  | str (s : String)
  | parts (l : List ContentPart)

/-- The mutable state of PDFTextBase (text.py lines 227-311): constructor
fields followed by the fields assigned by `init()`.  `factors` is an
observation field, not present in the source: `add_line_to_stream` appends to
it the justification factor it uses for each line it emits, so that theorems
can speak about the emitted factor; nothing in the embedding reads it. -/
structure PDFTextBase where
  fonts : Fonts
  used_fonts : List (String × String)
  width : ℚ
  height : ℚ
  x : ℚ
  y : ℚ
  indent : ℚ
  text_align : String
  line_height : ℚ
  list_text : Option String
  list_indent : ℚ
  list_style : Option (Sum String StyleD)
  content : List ContentPart
  last_part_index : Nat
  last_word_index : Nat
  finished : Bool
  is_first_line : Bool
  correct_indent : Bool
  list_setup_done : Bool
  started : Bool
  lines : List PDFTextLine
  text : String
  graphics : String
  idsMap : List (String × List (List ℚ))
  current_height : ℚ
  current_line_used_fonts : List (String × String)
  current_line : PDFTextLine
  last_indent : ℚ
  last_state : Option PDFState
  last_factor : Option ℚ
  last_fill : Option PDFColor
  last_color : Option PDFColor
  last_stroke_width : Option ℚ
  y_ : ℚ
  list_state : Option PDFState
  factors : List ℚ

/-- PDFTextBase.__init__ (text.py lines 228-261).  A plain-string content is
wrapped as one part with the default style; `width` and `height` default to
the paragraph defaults, `height` clipped at 0.  The fields that `init()`
assigns are given placeholder values here (every layout call runs `init()`
first).  The `list_indent is None` branch of `setup_list` is outside this
embedding: a None `list_indent` crashes `init()` in the source before it
could be reached, so `list_indent` is a number. -/
def PDFTextBase.make (content : ContentInput) (width height : Option ℚ)
    (x y : ℚ) (fonts : Fonts) (text_align : Option String)
    (line_height : Option ℚ) (indent : ℚ) (list_text : Option String)
    (list_indent : ℚ) (list_style : Option (Sum String StyleD)) : PDFTextBase :=
  let contentL := match content with
    | .str s => [{ style := some TEXT_DEFAULTS, text := some (.str s) : ContentPart }]
    | .parts l => l
  { fonts := fonts, used_fonts := [],
    width := pyDefault width 200, height := max 0 (pyDefault height 200),
    x := x, y := y, indent := indent,
    text_align := pyDefault text_align PARAGRAPH_TEXT_ALIGN,
    line_height := pyDefault line_height PARAGRAPH_LINE_HEIGHT,
    list_text := list_text, list_indent := list_indent, list_style := list_style,
    content := contentL, last_part_index := 0, last_word_index := 0,
    finished := false, is_first_line := true, correct_indent := true,
    list_setup_done := false,
    started := false, lines := [], text := "", graphics := "", idsMap := [],
    current_height := 0, current_line_used_fonts := [],
    current_line := PDFTextLine.new fonts 0 none none 0,
    last_indent := 0, last_state := none, last_factor := none, last_fill := none,
    last_color := none, last_stroke_width := none, y_ := 0, list_state := none,
    factors := [] }

/-- PDFTextBase.init (text.py lines 287-310): reset the per-call state; the
first line's width is the block width minus the list indent, further minus the
first-line indent while the first content line has not been emitted. -/
def PDFTextBase.initRun (tb : PDFTextBase) : PDFTextBase :=
  let line_width :=
    tb.width - tb.list_indent - (if tb.is_first_line then tb.indent else 0)
  { tb with
    started := false, lines := [], text := "", graphics := "", idsMap := [],
    current_height := 0, current_line_used_fonts := [],
    current_line :=
      PDFTextLine.new tb.fonts line_width (some tb.text_align) (some tb.line_height) 0,
    last_indent := 0, last_state := none, last_factor := none,
    last_fill := none, last_color := none, last_stroke_width := none,
    y_ := 0, factors := [] }

/-- PDFTextBase.setup_list (text.py lines 397-426): resolve the list-marker
style from the first pending part's style updated by the list style, record
the marker's resolved state and its font. -/
def PDFTextBase.setup_list (tb : PDFTextBase) : Except String PDFTextBase := do
  let nl ← orAttrErr "NoneType object has no attribute line_parts"
    tb.current_line.next_line
  let p0 ← orIndexErr nl.line_parts.head?
  let ls : StyleD ←
    match tb.list_style with
    | none => pure {}
    | some (.inl s) => pure (parse_style_str s tb.fonts)
    | some (.inr d) => pure d
  let style := updateStyle p0.style ls
  let line_part ← PDFTextLinePart.make style tb.fonts none
  pure { tb with
    list_style := some (.inr ls),
    current_line_used_fonts :=
      insertIfAbsent tb.current_line_used_fonts
        (line_part.state.font_family, line_part.state.font_mode),
    list_state := some line_part.state }

/-- Append a bounding box to the anchor map (`self.ids.setdefault(id_, [])
.append(box)`, text.py lines 486-492). -/
def appendBox (m : List (String × List (List ℚ))) (k : String)
    (box : List ℚ) : List (String × List (List ℚ)) :=
  match m with
  | [] => [(k, [box])]
  | (k0, v) :: rest =>
    if k0 = k then (k0, v ++ [box]) :: rest else (k0, v) :: appendBox rest k box

/-- PDFTextBase.output_text (text.py lines 499-514): the state diff against
the last emitted state, a word-spacing directive when the effective spacing
changed, and the show-text directive for the concatenated tokens. -/
def PDFTextBase.output_text (tb : PDFTextBase) (part : PDFTextLinePart)
    (factor : ℚ) : Except String (String × PDFTextBase) := do
  let stream0 ← part.state.compare tb.last_state
  let tb := { tb with last_state := some part.state }
  let tw := pyRound3 (part.space_width * (factor - 1))
  let (stream1, tb) :=
    if tb.last_factor ≠ some tw then
      (stream0 ++ " " ++ fmtQ tw ++ " Tw", { tb with last_factor := some tw })
    else (stream0, tb)
  let txt := String.join part.words
  let stream2 := if txt ≠ "" then stream1 ++ " (" ++ txt ++ ")Tj" else stream1
  pure (stream2, tb)

/-- PDFTextBase.output_graphics (text.py lines 516-546): background rectangle
fill and underline stroke directives, with fill color, stroke color and
stroke width emitted only on change. -/
def PDFTextBase.output_graphics (tb : PDFTextBase) (part : PDFTextLinePart)
    (x y part_width : ℚ) : String × PDFTextBase :=
  let (g1, tb) :=
    if part.background.color ≠ none then
      let (gA, tb) :=
        if some part.background ≠ tb.last_fill then
          (" " ++ part.background.str, { tb with last_fill := some part.background })
        else ("", tb)
      (gA ++ " " ++ fmtQ (pyRound3 x) ++ " "
        ++ fmtQ (pyRound3 (y + part.state.rise - part.state.size * (1/4))) ++ " "
        ++ fmtQ (pyRound3 part_width) ++ " " ++ fmtQ (pyRound3 part.state.size)
        ++ " re F", tb)
    else ("", tb)
  if part.underline then
    let color := PDFColor.ofColor part.state.color true
    let stroke_width := part.state.size * (1/10)
    let y_u := pyRound3 (y + part.state.rise - stroke_width)
    let (g2, tb) :=
      if some color ≠ tb.last_color then
        (" " ++ color.str, { tb with last_color := some color })
      else ("", tb)
    let (g3, tb) :=
      if some stroke_width ≠ tb.last_stroke_width then
        (" " ++ fmtQ (pyRound3 stroke_width) ++ " w",
          { tb with last_stroke_width := some stroke_width })
      else ("", tb)
    (g1 ++ g2 ++ g3 ++ " " ++ fmtQ (pyRound3 x) ++ " " ++ fmtQ y_u ++ " m "
      ++ fmtQ (pyRound3 (x + part_width)) ++ " " ++ fmtQ y_u ++ " l S", tb)
  else (g1, tb)

/-- The justification factor `add_line_to_stream` uses for a line (text.py
lines 429-479): 1 when not justifying, when the line is flagged last, or when
the line has no spaces; otherwise the remaining width (after the list indent,
the word widths, and the first-line indent while on the first line) divided
by the spaces width.  No clamping is applied. -/
def PDFTextBase.emittedFactor (tb : PDFTextBase) (line : PDFTextLine)
    (is_last : Bool) : ℚ :=
  let ws := line.get_widths
  let ignore_factor : Bool :=
    decide (tb.text_align ≠ "j") || is_last || decide (ws.2 = 0)
  let fw0 := tb.width - tb.list_indent - ws.1
  let factor_width :=
    if ¬ tb.started ∧ tb.is_first_line then fw0 - tb.indent else fw0
  if ignore_factor then 1 else factor_width / ws.2

/-- The per-part body of the emission loop of add_line_to_stream (text.py
lines 481-497): state diff and text, anchor boxes, graphics, and the
horizontal cursor advance by the part's width at the factor. -/
def PDFTextBase.emitPart (factor : ℚ) (acc : PDFTextBase × ℚ)
    (part : PDFTextLinePart) : Except String (PDFTextBase × ℚ) := do
  let (tb, x) := acc
  let (s, tb) ← tb.output_text part factor
  let tb := { tb with text := tb.text ++ s }
  let part_width := part.current_width factor
  let part_size := pyRound3 part.state.size
  let tb :=
    match part.ids with
    | none => tb
    | some ids =>
      let m2 := ids.foldl
        (fun m id_ => appendBox m id_
          [pyRound3 x,
           pyRound3 (tb.y_ + part.state.rise - part_size * (1/4)),
           pyRound3 (x + part_width), pyRound3 part_size])
        tb.idsMap
      { tb with idsMap := m2 }
  let (g, tb) := tb.output_graphics part x tb.y_ part_width
  let tb := { tb with graphics := tb.graphics ++ g }
  pure (tb, x + part_width)

/-- The vertical-advance head of add_line_to_stream (text.py lines 429-477):
the Td positioning emission, including the first-line list-marker and indent
handling and the right/center offset.  Returns the updated state, the full
line height consumed, and the starting horizontal cursor. -/
def PDFTextBase.emitLineAdvance (tb0 : PDFTextBase) (line : PDFTextLine) :
    Except String (PDFTextBase × ℚ × ℚ) := do
  let ws := line.get_widths
  let words_width := ws.1
  let spaces_width := ws.2
  let x0 : ℚ := if truthyStr tb0.list_text then tb0.list_indent else 0
  let full0 := line.height
  if ¬ tb0.started then
    let tbA := { tb0 with started := true }
    if tbA.is_first_line then
      let tbB := { tbA with is_first_line := false }
      if truthyStr tbB.list_text then do
        let ls ← orAttrErr "PDFTextBase object has no attribute list_state"
          tbB.list_state
        let full1 := if ls.size > full0 then ls.size else full0
        let cmp ← ls.compare tbB.last_state
        let txt := " 0 -" ++ fmtQ (pyRound3 full1) ++ " Td" ++ cmp ++ " ("
          ++ (tbB.list_text.getD "") ++ ")Tj "
          ++ fmtQ (tbB.list_indent + tbB.indent) ++ " 0 Td"
        pure ({ tbB with text := tbB.text ++ txt }, full1, x0)
      else
        let txt := " " ++ fmtQ (pyRound3 tbB.indent) ++ " -"
          ++ fmtQ (pyRound3 full0) ++ " Td"
        pure ({ tbB with text := tbB.text ++ txt }, full0, x0)
    else
      let first_indent : ℚ := if truthyStr tbA.list_text then tbA.list_indent else 0
      let txt := " " ++ fmtQ (pyRound3 first_indent) ++ " -"
        ++ fmtQ (pyRound3 full0) ++ " Td"
      pure ({ tbA with text := tbA.text ++ txt }, full0, x0)
  else
    let rc := tb0.text_align = "r" ∨ tb0.text_align = "c"
    let ind0 := tb0.width - words_width - spaces_width
    let ind1 := if tb0.text_align = "c" then ind0 / 2 else ind0
    let x1 := if rc then x0 + ind1 else x0
    let adjusted0 : ℚ := if rc then ind1 - tb0.last_indent else 0
    let tbA := if rc then { tb0 with last_indent := ind1 } else tb0
    let adjusted := if tbA.correct_indent then adjusted0 - tbA.indent else adjusted0
    let tbB := if tbA.correct_indent then { tbA with correct_indent := false } else tbA
    let full1 := full0 * tbB.line_height
    let txt := " " ++ fmtQ (pyRound3 adjusted) ++ " -" ++ fmtQ (pyRound3 full1)
      ++ " Td"
    pure ({ tbB with text := tbB.text ++ txt }, full1, x1)

/-- PDFTextBase.add_line_to_stream (text.py lines 428-497): emit the vertical
advance and horizontal offset for the line, then for each part the state
diff, word spacing, text, anchors and graphics, advancing the horizontal
cursor by each part's width at the justification factor. -/
def PDFTextBase.add_line_to_stream (tb0 : PDFTextBase) (line : PDFTextLine)
    (is_last : Bool) : Except String PDFTextBase := do
  let (tb2, full_line_height, x1) ← tb0.emitLineAdvance line
  let tb3 := { tb2 with y_ := tb2.y_ - full_line_height }
  let factor := tb0.emittedFactor line is_last
  let tb4 := { tb3 with factors := tb3.factors ++ [factor] }
  let res ← line.line_parts.foldlM (PDFTextBase.emitPart factor) (tb4, x1)
  pure res.1

/-- PDFTextBase.add_current_line (text.py lines 383-395): fail (returning
False without any mutation) when the line's height at the line-height
multiplier would exceed the height budget; otherwise account the height,
append the line, merge the pending used fonts, and emit the line (the
`is_last` parameter is accepted but never used by the source, and
`add_line_to_stream` is called without it, i.e. with is_last False). -/
def PDFTextBase.add_current_line (tb : PDFTextBase) (is_last : Bool) :
    Except String (Bool × PDFTextBase) :=
  let line_height := tb.current_line.height * tb.line_height
  if line_height + tb.current_height > tb.height then pure (false, tb)
  else do
    let tb := { tb with
      current_height := tb.current_height + line_height,
      lines := tb.lines ++ [tb.current_line],
      used_fonts := tb.current_line_used_fonts.foldl insertIfAbsent tb.used_fonts,
      current_line_used_fonts := [] }
    let tb ← tb.add_line_to_stream tb.current_line false
    pure (true, tb)

/-- The word loop of PDFTextBase.add_part (text.py lines 366-379), iterating
the remaining token indices: on `added` the resumption cursor is advanced
past the whole part; on `finished` the completed line is committed (aborting
with False when it does not fit) and the handed-back line becomes current. -/
def PDFTextBase.addPartLoop (tb : PDFTextBase) (part_index : Nat)
    (toks : List String) : List Nat → Except String (Bool × PDFTextBase)
  | [] => pure (true, tb)
  | wi :: rest => do
    let word ← orIndexErr (toks.get? wi)
    let (ans, cl) ← tb.current_line.add_word word (tb.width - tb.list_indent)
    let tb := { tb with current_line := cl }
    match ans with
    | .added =>
      PDFTextBase.addPartLoop
        { tb with last_part_index := part_index + 1, last_word_index := 0 }
        part_index toks rest
    | .ignored => PDFTextBase.addPartLoop tb part_index toks rest
    | .preadded => PDFTextBase.addPartLoop tb part_index toks rest
    | .finished new_line => do
      let isLast : Bool :=
        (part_index == tb.content.length - 1) && (wi == toks.length - 1)
      let (cont, tb) ← tb.add_current_line isLast
      let tb := { tb with current_line := new_line }
      if cont then PDFTextBase.addPartLoop tb part_index toks rest
      else pure (false, tb)

/-- PDFTextBase.add_part (text.py lines 340-381): a part without usable text
reports `continue` (truthy, modelled as True); otherwise the merged style
opens a new line part, the list marker is set up once, the part's font is
noted, a string text is tokenised in place, and the words are fed to the
current line from the resumption word index. -/
def PDFTextBase.add_part (tb : PDFTextBase) (part_index : Nat) :
    Except String (Bool × PDFTextBase) := do
  let part ← orIndexErr (tb.content.get? part_index)
  match part.text with
  | none => pure (true, tb)
  | some words0 => do
    let style := updateStyle TEXT_DEFAULTS (part.style.getD {})
    let (new_line_part, cl) ← tb.current_line.add_line_part style part.ids
    let tb := { tb with current_line := cl }
    let tb ←
      if ¬ tb.list_setup_done ∧ truthyStr tb.list_text then
        PDFTextBase.setup_list { tb with list_setup_done := true }
      else pure tb
    let tb := { tb with
      current_line_used_fonts :=
        insertIfAbsent tb.current_line_used_fonts
          (new_line_part.state.font_family, new_line_part.state.font_mode) }
    let toks := match words0 with
      | .str s => tokenize s
      | .toks l => l
    let tb := match words0 with
      | .str _ =>
        { tb with content :=
            tb.content.set part_index { part with text := some (.toks toks) } }
      | .toks _ => tb
    PDFTextBase.addPartLoop tb part_index toks
      ((List.range toks.length).drop tb.last_word_index)

/-- The part loop of PDFTextBase.run (text.py lines 314-338): a part with a
`type` key only acts when the type is `br` (committing the current line and
advancing the cursor, or aborting with False); a plain part goes through
add_part; after the loop the current line is committed as last and on success
the block is marked finished. -/
def PDFTextBase.runLoop (tb : PDFTextBase) :
    List Nat → Except String (Bool × PDFTextBase)
  | [] => do
    let (cont, tb) ← tb.add_current_line true
    let tb := if cont then { tb with finished := true } else tb
    pure (tb.finished, tb)
  | pi :: rest => do
    let part ← orIndexErr (tb.content.get? pi)
    match part.type with
    | some t =>
      if t = "br" then do
        let (cont, tb) ← tb.add_current_line false
        if cont then
          PDFTextBase.runLoop
            { tb with last_part_index := pi + 1, last_word_index := 0 } rest
        else pure (false, tb)
      else PDFTextBase.runLoop tb rest
    | none => do
      let (cont, tb) ← tb.add_part pi
      if cont then PDFTextBase.runLoop tb rest
      else pure (false, tb)

/-- PDFTextBase.run (text.py lines 312-338): reset per-call state, then
process the content parts from the resumption cursor. -/
def PDFTextBase.run (tb : PDFTextBase) : Except String (Bool × PDFTextBase) :=
  let tb := tb.initRun
  PDFTextBase.runLoop tb ((List.range tb.content.length).drop tb.last_part_index)

/-- An entry of `PDFText.content` produced by the recursive content parse:
the dict `{'style': ..., 'text': ..., 'ids': ...}` built by
`_new_text_part`. -/
structure ParsedPart where
  style : StyleD
  txt : String
  ids : List String
deriving DecidableEq

/-- The input tree of PDFText (pdf.py callers / text.py lines 570-642): a
string, a list, or a scope dict.  A scope dict is modelled by its relevant
keys: the first key starting with a dot (shorthand style string, with its
value), and the `var`, `style`, `label`, `ref` and `uri` keys; any other key
is ignored by the source.  A dict value of an unrepresentable Python type
would raise TypeError in the source. -/
inductive PContent : Type where
  | strC (s : String)
  | listC (items : List PContent)
  | dictC (dotKey : Option (String × PContent)) (var : Option String)
      (styleAttr : Option StyleD) (label : Option String) (ref : Option String)
      (uri : Option String)

/-- PDFText._new_text_part (text.py lines 563-568): drop the previous part
when it stayed empty, then append a fresh empty part with the given style and
anchor-id list, returning it. -/
def newTextPart (acc : List ParsedPart) (style : StyleD) (ids : List String)
    (last_part : Option ParsedPart) : List ParsedPart × ParsedPart :=
  let acc :=
    match last_part with
    | some lp => if lp.txt = "" then eraseFirst acc lp else acc
    | none => acc
  let tp : ParsedPart := { style := style, txt := "", ids := ids }
  (acc ++ [tp], tp)

/-- A variable-substitution context (`self.pdf.context`), present when the
parse runs under a PDF document. -/
abbrev PdfCtx := List (String × String)

/-- The element loop of `_recursive_content_parse` (text.py lines 618-637),
abstracted over the recursive parse call for the dict elements (`recurse`
receives the element, the current style, the current part's anchor ids and
the accumulated parts).

A nonempty string element is split on embedded line breaks; the first segment
extends the current part (a fresh part is opened unless the previous element
was also a string); every further segment would append a break marker to
`self.elements` — an attribute that is never assigned anywhere in the class,
so the statement raises AttributeError (and even without that, the following
`self._new_text_part(style, label, ref, uri)` passes four positional
arguments to a three-parameter method).  A dict element recurses with the
current part's anchor ids.  Anything else — including the empty string, which
fails the `element != ''` guard — raises TypeError. -/
def parseElements
    (recurse : PContent → StyleD → List String → List ParsedPart →
      Except String (List ParsedPart))
    (els : List PContent) (style : StyleD) (acc : List ParsedPart)
    (tp : ParsedPart) (is_last_string : Bool) :
    Except String (List ParsedPart × ParsedPart × Bool) := do
  match els with
  | [] => pure (acc, tp, is_last_string)
  | e :: rest =>
    match e with
    | .strC s =>
      if s ≠ "" then do
        let lines := s.splitOn "\x0a"
        let (acc, tp) :=
          if ¬ is_last_string then newTextPart acc style tp.ids (some tp)
          else (acc, tp)
        let tp := { tp with txt := tp.txt ++ lines.headD "" }
        let acc := setLast acc tp
        if lines.length > 1 then
          Except.error "AttributeError: PDFText object has no attribute elements"
        else
          parseElements recurse rest style acc tp true
      else Except.error "TypeError: elements must be of type str or dict"
    | .dictC a b c d e f => do
      let acc ← recurse (.dictC a b c d e f) style tp.ids acc
      parseElements recurse rest style acc tp false
    | .listC _ => Except.error "TypeError: elements must be of type str or dict"

/-- PDFText._recursive_content_parse (text.py lines 570-642).  A string or
list content is wrapped into a dot-keyed scope; a lone `var` scope under a
PDF is replaced by the context value; the dot key updates the inherited style
by its shorthand tail and provides the child elements (a dict value raises
TypeError); the scope's own part inherits the (deep-copied) anchor ids plus
the label/ref/uri ids declared here; the elements are then parsed in order
through `parseElements`; finally the scope's part is dropped when it stayed
empty.

The `fuel` argument models CPython's recursion limit, which bounds the
recursive work this method may perform before the interpreter raises
RecursionError.  The limit plays no role at the sizes any theorem uses. -/
def recursiveContentParse : Nat → Fonts → Option PdfCtx → PContent → StyleD →
    List String → List ParsedPart → Except String (List ParsedPart)
  | 0, _, _, _, _, _, _ =>
    Except.error "RecursionError: maximum recursion depth exceeded"
  | Nat.succ fuel, fonts, pdf, content, parent_style, ids0, acc => do
  let style := parent_style
  let ids := ids0
  let (dotKey, var, styleAttr, label, ref, uri) :=
    match content with
    | .strC s => (some (".", PContent.listC [PContent.strC s]), none, none, none, none, none)
    | .listC l => (some (".", PContent.listC l), none, none, none, none, none)
    | .dictC a b c d e f => (a, b, c, d, e, f)
  let (dotKey, _var, styleAttr, label, ref, uri) :=
    match dotKey, var, styleAttr, label, ref, uri, pdf with
    | none, some v, none, none, none, none, some ctx =>
      (some (".", PContent.listC [PContent.strC ((alistGet ctx v).getD "")]),
        none, none, none, none, none)
    | a, b, c, d, e, f, _ => (a, b, c, d, e, f)
  let (style, elements) ←
    match dotKey with
    | some (k, v) => do
      let st := updateStyle style (parse_style_str (k.drop 1) fonts)
      let els ←
        match v with
        | .strC s => pure [PContent.strC s]
        | .listC l => pure l
        | .dictC _ _ _ _ _ _ =>
          Except.error "TypeError: value of . attr must be of type str, list or tuple"
      pure (st, els)
    | none => pure (style, ([] : List PContent))
  let style := updateStyle style (process_style styleAttr)
  let (acc, tp) := newTextPart acc style ids none
  let extraIds :=
    (match label with | some l => ["$label:" ++ l] | none => [])
    ++ (match ref with | some r => ["$ref:" ++ r] | none => [])
    ++ (match uri with | some u => ["$uri:" ++ u] | none => [])
  let tp := { tp with ids := tp.ids ++ extraIds }
  let acc := setLast acc tp
  let (acc, tp, _) ← parseElements
    (fun c st ids2 acc2 => recursiveContentParse fuel fonts pdf c st ids2 acc2)
    elements style acc tp false
  let acc := if tp.txt = "" then eraseFirst acc tp else acc
  pure acc

/-- PDFText.__init__ (text.py lines 548-561): parse the content tree into the
flat part list, then initialise the base engine with it.  The fuel is
CPython's default recursion limit. -/
def PDFText.make (content : PContent) (width height : Option ℚ) (x y : ℚ)
    (fonts : Fonts) (text_align : Option String) (line_height : Option ℚ)
    (indent : ℚ) (list_text : Option String) (list_indent : ℚ)
    (list_style : Option (Sum String StyleD)) (pdf : Option PdfCtx) :
    Except String PDFTextBase := do
  let parsed ← recursiveContentParse 1000 fonts pdf content TEXT_DEFAULTS [] []
  let parts := parsed.map (fun p =>
    { style := some p.style, text := some (.str p.txt), ids := some p.ids : ContentPart })
  pure (PDFTextBase.make (.parts parts) width height x y fonts text_align
    line_height indent list_text list_indent list_style)

/-- The parameter names of PDFText.__init__ after self (text.py lines
549-553), in order. -/
def pdftextInitParams : List String :=
  ["content", "width", "height", "x", "y", "fonts", "text_align",
   "line_height", "indent", "list_text", "list_indent", "list_style", "pdf"]

/-- The keys of the dict `PDF.default_text_style` returns (pdf.py lines
240-249), expanded as keyword arguments by `PDFText(content, self.fonts_data,
**style)`. -/
def createTextKwargKeys : List String :=
  ["width", "height", "text_align", "line_height", "indent"]

/-- Python's call-argument binding for a call `f(p1, p2, **kw)` against a
parameter list: the first `npos` parameters are filled positionally, then a
keyword naming an already-filled parameter raises
`TypeError: got multiple values for argument ...`, and a keyword naming no
parameter raises an unexpected-keyword TypeError.  The binding happens before
the function body runs. -/
def bindCallKwargs (params : List String) (npos : Nat) (kwargs : List String) :
    Except String Unit :=
  let posBound := params.take npos
  match kwargs.find? (fun k => posBound.contains k) with
  | some k => Except.error ("TypeError: got multiple values for argument " ++ k)
  | none =>
    match kwargs.find? (fun k => !params.contains k) with
    | some k => Except.error ("TypeError: unexpected keyword argument " ++ k)
    | none => Except.ok ()

/-- The PDF document object (pdf.py lines 31-79), reduced to the numeric and
table fields that `default_text_style` and `create_text` read. -/
structure PDFDoc where
  width : ℚ
  height : ℚ
  x : ℚ
  y : ℚ
  margins : List ℚ
  text_align : String
  line_height : ℚ
  fonts_data : Fonts

/-- The style-argument dict built by PDF.default_text_style (pdf.py lines
240-249). -/
structure TextStyleArgs where
  width : ℚ
  height : ℚ
  text_align : String
  line_height : ℚ
  indent : ℚ

/-- PDF.default_text_style (pdf.py lines 240-249): fill unspecified width,
height, alignment and line height from the document state (missing margins
entries are read as 0; the source would raise IndexError there, which no
claim exercises). -/
def PDFDoc.default_text_style (pdf : PDFDoc) (width height : Option ℚ)
    (text_align : Option String) (line_height : Option ℚ) (indent : ℚ) :
    TextStyleArgs :=
  { width := width.getD (pdf.width + (pdf.margins.getD 3 0) - pdf.x),
    height := height.getD (pdf.height + (pdf.margins.getD 0 0) - pdf.y),
    text_align := text_align.getD pdf.text_align,
    line_height := line_height.getD pdf.line_height,
    indent := indent }

/-- PDF.create_text (pdf.py lines 252-263): build the default style dict,
then call `PDFText(content, self.fonts_data, **style)`.  The two positional
arguments fill `content` and `width`, and the expanded style dict supplies
`width` again, so Python's binding raises TypeError before PDFText.__init__
runs; the construction and the following `pdf_text.process()` (a method
PDFText does not define) are unreachable. -/
def PDFDoc.create_text (pdf : PDFDoc) (content : PContent)
    (width height : Option ℚ) (text_align : Option String)
    (line_height : Option ℚ) (indent : ℚ) : Except String PDFTextBase := do
  let _style := pdf.default_text_style width height text_align line_height indent
  bindCallKwargs pdftextInitParams 2 createTextKwargKeys
  Except.error "AttributeError: PDFText object has no attribute process"

/-- PDF.text (pdf.py lines 285-296): create the text block, then add it to
the page.  `add_text` would call `pdf_text.build(...)`, a method PDFText does
not define, but `create_text` always raises first. -/
def PDFDoc.text (pdf : PDFDoc) (content : PContent) (width height : Option ℚ)
    (text_align : Option String) (line_height : Option ℚ) (indent : ℚ)
    (_move : String) : Except String PDFTextBase := do
  let pdf_text ← pdf.create_text content width height text_align line_height indent
  let _ := pdf_text
  Except.error "AttributeError: PDFText object has no attribute build"

/-! Specification-side definitions for claim C8, written from the claim's
wording: `compare` emits a font-select directive iff the prior state is
absent or differs in font family, font mode, or size; a color directive iff
the prior is absent or the color differs; a baseline-rise directive iff the
prior is absent or the rise differs; and the empty string when the prior is
present and all three groups agree. -/

/-- The font-select directive fragment for a font reference and size. -/
def fontSelectDirective (ref : String) (size : ℚ) : String :=
  " /" ++ ref ++ " " ++ fmtQ (pyRound3 size) ++ " Tf"

/-- The color directive fragment for a color. -/
def colorDirective (c : PDFColor) : String :=
  " " ++ c.str

/-- The baseline-rise directive fragment for a rise. -/
def riseDirective (r : ℚ) : String :=
  " " ++ fmtQ (pyRound3 r) ++ " Ts"

/-- The prior state is absent or differs in font family, font mode or size. -/
def fontGroupChanged (a : PDFState) : Option PDFState → Bool
  | none => true
  | some b =>
    decide (a.font_family ≠ b.font_family) || decide (a.font_mode ≠ b.font_mode)
      || decide (a.size ≠ b.size)

/-- The prior state is absent or the color differs. -/
def colorGroupChanged (a : PDFState) : Option PDFState → Bool
  | none => true
  | some b => decide (a.color ≠ b.color)

/-- The prior state is absent or the rise differs. -/
def riseGroupChanged (a : PDFState) : Option PDFState → Bool
  | none => true
  | some b => decide (a.rise ≠ b.rise)

/-- Specification-side compare: exactly the directives whose group changed,
in font/color/rise order. -/
def compareSpec (a : PDFState) (prior : Option PDFState) (ref : String) : String :=
  (if fontGroupChanged a prior then fontSelectDirective ref a.size else "")
    ++ (if colorGroupChanged a prior then colorDirective a.color else "")
    ++ (if riseGroupChanged a prior then riseDirective a.rise else "")

/-! Concrete fixture and scenario inputs.  The metric fixture gives every
character an advance width of 600/1000 em units, so at font size 10 every
character is 6pt wide (the fixture table lists the characters the scenario
contents use). -/

/-- Fixture width table: every listed character is 600/1000 em units wide. -/
def fixWidths : List (Char × ℚ) :=
  [(' ', 600), ('A', 600), ('B', 600), ('C', 600)]

/-- Fixture fonts table with one family and its normal variant. -/
def fixFonts : Fonts := [("Fix", [("n", { ref := "F1", widths := fixWidths })])]

/-- Fixture part style: the fixture family at size 10. -/
def fixPatch : StyleD := { f := some "Fix", s := some 10 }

/-- The fixture style merged over the text defaults, as `add_part` builds
it. -/
def fixStyle : StyleD := updateStyle TEXT_DEFAULTS fixPatch

/-- The resolved fixture state (what `PDFState.make fixStyle fixFonts`
yields). -/
def stateFix : PDFState :=
  { fonts := fixFonts, font_family := "Fix", font_mode := "n", size := 10,
    color := PDFColor.make (some (1/10)), rise := 0 }

/-- The fixture font entry `fixFonts["Fix"]["n"]`. -/
def entryFix : FontEntry := { ref := "F1", widths := fixWidths }

/-- A fresh fixture line part (what `PDFTextLinePart.make fixStyle fixFonts
none` yields): space width 6pt, nothing accumulated. -/
def partFix : PDFTextLinePart :=
  { fonts := fixFonts, style := fixStyle, state := stateFix, underline := false,
    background := PDFColor.make none, ids := none, width := 0, words := [],
    space_width := 6, spaces_width := 0 }

/-- Scenario C2: content "AAAA BBBB", width 30pt, ample height, left
aligned. -/
def tbC2 : PDFTextBase :=
  PDFTextBase.make
    (.parts [{ style := some fixPatch, text := some (.str "AAAA BBBB") }])
    (some 30) (some 100) 0 0 fixFonts (some "l") (some (11/10)) 0 none 0 none

/-- Scenario C4: the same content with a height budget of 5pt, smaller than
one line height (10 × 1.1 = 11pt). -/
def tbC4 : PDFTextBase :=
  PDFTextBase.make
    (.parts [{ style := some fixPatch, text := some (.str "AAAA BBBB") }])
    (some 30) (some 5) 0 0 fixFonts (some "l") (some (11/10)) 0 none 0 none

/-- Scenario C1: content "AAAAA " (a 30pt word and a trailing space), width
30pt. -/
def tbC1 : PDFTextBase :=
  PDFTextBase.make
    (.parts [{ style := some fixPatch, text := some (.str "AAAAA ") }])
    (some 30) (some 100) 0 0 fixFonts (some "l") (some (11/10)) 0 none 0 none

/-- Scenario C3: content "A B CCCCCC", width 30pt, justified. -/
def tbC3 : PDFTextBase :=
  PDFTextBase.make
    (.parts [{ style := some fixPatch, text := some (.str "A B CCCCCC") }])
    (some 30) (some 100) 0 0 fixFonts (some "j") (some (11/10)) 0 none 0 none

/-- A fixture line holding one size-10 part, used to build a state whose
current line does not fit a 5pt budget. -/
def lineC7 : PDFTextLine :=
  .mk fixFonts 30 "l" (11/10) 0 [partFix] (7/10) true false false none

/-- A layout state whose current line (height 10, so 11 at the line-height
multiplier) exceeds the 5pt height budget. -/
def tbC7 : PDFTextBase :=
  { PDFTextBase.make (.parts []) (some 30) (some 5) 0 0 fixFonts (some "l")
      (some (11/10)) 0 none 0 none with
    current_line := lineC7 }

/-- A fixture part holding the committed tokens "A", space, "B" (word width
12pt, space width 6pt), as the justify scenario commits them. -/
def partW : PDFTextLinePart :=
  { partFix with words := ["A", " ", "B"], width := 12, spaces_width := 6 }

/-- A committed justify line with one space token, words width 12pt and max
width 30pt. -/
def lineW : PDFTextLine :=
  .mk fixFonts 30 "j" (11/10) 0 [partW] (7/10) true false false none

/-- The C6 token sequence fed directly to a wrap line: a word, a space, a
word, then two consecutive spaces. -/
def c6run : Except String (List String × PDFTextLine) := do
  let l0 := PDFTextLine.new fixFonts 1000 (some "l") (some (11/10)) 0
  let (_, l) ← l0.add_line_part fixStyle none
  let (r1, l) ← l.add_word "A" 1000
  let (r2, l) ← l.add_word " " 1000
  let (r3, l) ← l.add_word "B" 1000
  let (r4, l) ← l.add_word " " 1000
  let (r5, l) ← l.add_word " " 1000
  pure ([r1.status, r2.status, r3.status, r4.status, r5.status], l)

/-! ### Helper lemmas

The factors chain: `add_line_to_stream` records in the observation field
`factors` exactly the factor `emittedFactor` computes, because nothing after
that point of the function touches the field. -/

/-- output_text leaves the factors observation unchanged. -/
theorem output_text_factors (tb : PDFTextBase) (part : PDFTextLinePart)
    (factor : ℚ) (s : String) (tb2 : PDFTextBase)
    (h : tb.output_text part factor = .ok (s, tb2)) : tb2.factors = tb.factors := by
  unfold PDFTextBase.output_text at h
  cases hc : part.state.compare tb.last_state with
  | error e => rw [hc] at h; simp at h
  | ok s0 =>
    rw [hc] at h
    simp only [okBind, pureOk] at h
    split at h <;> cases h <;> (split <;> rfl)

/-- output_graphics leaves the factors observation unchanged. -/
theorem output_graphics_factors (tb : PDFTextBase) (part : PDFTextLinePart)
    (x y w : ℚ) :
    (tb.output_graphics part x y w).2.factors = tb.factors := by
  unfold PDFTextBase.output_graphics
  dsimp only
  repeat' split
  all_goals rfl

/-- One step of the part-emission loop leaves the factors observation
unchanged. -/
theorem emitPart_factors (factor : ℚ) (acc : PDFTextBase × ℚ)
    (part : PDFTextLinePart) (res : PDFTextBase × ℚ)
    (h : PDFTextBase.emitPart factor acc part = .ok res) :
    res.1.factors = acc.1.factors := by
  obtain ⟨tb0, x0⟩ := acc
  unfold PDFTextBase.emitPart at h
  dsimp only at h
  cases ho : tb0.output_text part factor with
  | error e => rw [ho] at h; simp at h
  | ok p =>
    obtain ⟨s, tb1⟩ := p
    rw [ho] at h
    simp only [okBind, pureOk] at h
    have hot := output_text_factors tb0 part factor s tb1 ho
    cases h
    cases hids : part.ids <;>
      simp only [hids] <;>
      rw [output_graphics_factors] <;>
      simp [hot]

/-- The whole part-emission loop leaves the factors observation unchanged. -/
theorem foldlM_emitPart_factors (factor : ℚ) :
    ∀ (parts : List PDFTextLinePart) (acc res : PDFTextBase × ℚ),
      List.foldlM (PDFTextBase.emitPart factor) acc parts = .ok res →
      res.1.factors = acc.1.factors := by
  intro parts
  induction parts with
  | nil => intro acc res h; simp [List.foldlM] at h; rw [← h]
  | cons p rest ih =>
    intro acc res h
    rw [List.foldlM_cons] at h
    cases he : PDFTextBase.emitPart factor acc p with
    | error e => rw [he] at h; simp at h
    | ok acc2 =>
      rw [he] at h
      simp only [okBind] at h
      have := ih acc2 res h
      rw [this, emitPart_factors factor acc p acc2 he]

/-- The vertical-advance head leaves the factors observation unchanged. -/
theorem emitLineAdvance_factors (tb : PDFTextBase) (line : PDFTextLine)
    (r : PDFTextBase × ℚ × ℚ) (h : tb.emitLineAdvance line = .ok r) :
    r.1.factors = tb.factors := by
  unfold PDFTextBase.emitLineAdvance at h
  dsimp only at h
  split at h
  · split at h
    · split at h
      · cases hls : tb.list_state with
        | none => rw [hls] at h; simp [orAttrErr] at h
        | some ls =>
          rw [hls] at h
          simp only [orAttrErr, okBind] at h
          cases hc : ls.compare tb.last_state with
          | error e => rw [hc] at h; simp at h
          | ok cmp =>
            rw [hc] at h
            simp only [okBind, pureOk] at h
            cases h
            rfl
      · simp only [pureOk] at h; cases h; rfl
    · simp only [pureOk] at h; cases h; rfl
  · simp only [pureOk] at h
    cases h
    dsimp only
    split <;> (try dsimp only) <;> split <;> rfl

/-- A successful add_line_to_stream appends exactly the factor that
emittedFactor computes to the factors observation. -/
theorem add_line_to_stream_factors (tb : PDFTextBase) (line : PDFTextLine)
    (il : Bool) (tb2 : PDFTextBase)
    (h : tb.add_line_to_stream line il = .ok tb2) :
    tb2.factors = tb.factors ++ [tb.emittedFactor line il] := by
  unfold PDFTextBase.add_line_to_stream at h
  cases ha : tb.emitLineAdvance line with
  | error e => rw [ha] at h; simp at h
  | ok r =>
    obtain ⟨tbA, full, x1⟩ := r
    rw [ha] at h
    simp only [okBind] at h
    cases hf : List.foldlM (PDFTextBase.emitPart (tb.emittedFactor line il))
        ({ { tbA with y_ := tbA.y_ - full } with
            factors := { tbA with y_ := tbA.y_ - full }.factors
              ++ [tb.emittedFactor line il] }, x1) line.line_parts with
    | error e => rw [hf] at h; simp at h
    | ok res =>
      rw [hf] at h
      simp only [okBind, pureOk] at h
      cases h
      have h2 := foldlM_emitPart_factors (tb.emittedFactor line il)
        line.line_parts _ _ hf
      rw [h2]
      have h3 := emitLineAdvance_factors tb line (tbA, full, x1) ha
      simp at h3 ⊢
      rw [h3]

/-- A string whose length is zero is empty. -/
theorem eq_empty_of_length_zero (t : String) (ht : t.length = 0) : t = "" := by
  cases t with
  | mk data =>
    cases data with
    | nil => rfl
    | cons c cs => simp [String.length] at ht

/-- An append with a nonempty right operand is nonempty. -/
theorem append_ne_empty_right (s t : String) (h : t ≠ "") : s ++ t ≠ "" := by
  intro he
  have hl := congrArg String.length he
  rw [String.length_append] at hl
  have h0 : ("" : String).length = 0 := rfl
  rw [h0] at hl
  exact h (eq_empty_of_length_zero t (by omega))

/-- An append with a nonempty left operand is nonempty. -/
theorem append_ne_empty_left (s t : String) (h : s ≠ "") : s ++ t ≠ "" := by
  intro he
  have hl := congrArg String.length he
  rw [String.length_append] at hl
  have h0 : ("" : String).length = 0 := rfl
  rw [h0] at hl
  exact h (eq_empty_of_length_zero s (by omega))

/-! ### Claim theorems -/

/-- Claim C1 (evaluation at the failing input): the claimed width-bound
invariant fails on the code.  Laying out "AAAAA " (five 6pt characters and a
trailing space) at width 30pt commits one line whose tokens are the word and
the trailing space: its words width is 30, its spaces width 6, its max_width
30, and with the applied factor 1 (left alignment) the line measures
30 + 6·1 = 36 > 30.  The line does not consist of exactly one overlong word:
it has two tokens, and the word's width 30 does not exceed max_width 30 — so
the claim's only exception does not apply.  The trailing space is dropped
only in the wrap-overflow commit path, not in the end-of-block commit. -/
theorem C1_trailing_space_breaks_width_bound :
    ((tbC1.run).map (fun p => (p.1,
      p.2.lines.map (fun l => (l.lineWords, l.get_widths, l.max_width))))) =
      .ok (true, [(["AAAAA", " "], (30, 6), 30)])
    ∧ ((30 : ℚ) + 6 * 1 > 30 ∧ ¬ ((30 : ℚ) > 30)) := by
  constructor
  · with_unfolding_all rfl
  · norm_num

/-- Claim C2 (evaluation at the failing input): the scenario "AAAA BBBB" at
width 30pt with ample height commits two lines and reports finished, and the
first line is exactly "AAAA" with the trailing space dropped — but the second
committed line is empty: "BBBB" stays in the lookahead buffer
(current_line.next_line), which the final add_current_line never promotes, so
the token is silently lost instead of forming the second line. -/
theorem C2_second_line_loses_lookahead :
    ((tbC2.run).map (fun p => (p.1, p.2.lines.map PDFTextLine.lineWords,
      p.2.current_height))) = .ok (true, [["AAAA"], []], 11) := by
  with_unfolding_all rfl

/-- Claim C3 (counterexample): laying out "A B CCCCCC" justified at width
30pt commits a first line "A B" (words 12pt, one 6pt space) that is not the
block's last line (two lines are committed), and the factor used in its
emission — recorded by the factors observation of add_line_to_stream — is 3,
which does not lie in [0.7, 1.0]. -/
theorem C3_factor_outside_unit_interval :
    ((tbC3.run).map (fun p => (p.1, p.2.factors,
      p.2.lines.map PDFTextLine.lineWords, p.2.text_align))) =
      .ok (true, [3, 1], [["A", " ", "B"], []], "j")
    ∧ ¬ (((7 : ℚ)/10 ≤ 3) ∧ ((3 : ℚ) ≤ 1)) := by
  constructor
  · with_unfolding_all rfl
  · norm_num

/-- Claim C3 (amended): for a line emitted with text_align justify and a
nonzero spaces width, the factor used in emission is exactly
(width − list_indent − words_width − first-line indent correction) divided by
the spaces width — unclamped, so it need not lie in [0.7, 1.0] — and
consequently words_width + spaces_width·factor equals width − list_indent
(further minus indent on the block's first line) exactly; for a line with
non-justify alignment or no spaces the factor is 1.  The last conjunct ties
the definition to the emission: a successful add_line_to_stream records
exactly this factor (the source never passes is_last, so every line,
including the block's last, is emitted with is_last false). -/
theorem C3_emitted_factor_exact (tb : PDFTextBase) (line : PDFTextLine) :
    (tb.text_align = "j" → (line.get_widths).2 ≠ 0 →
      tb.emittedFactor line false =
        (tb.width - tb.list_indent - (line.get_widths).1
          - (if ¬ tb.started ∧ tb.is_first_line then tb.indent else 0))
          / (line.get_widths).2
      ∧ (line.get_widths).1 + (line.get_widths).2 * tb.emittedFactor line false
        = tb.width - tb.list_indent
          - (if ¬ tb.started ∧ tb.is_first_line then tb.indent else 0))
    ∧ ((tb.text_align ≠ "j" ∨ (line.get_widths).2 = 0) →
        tb.emittedFactor line false = 1)
    ∧ (∀ (il : Bool) (tb2 : PDFTextBase),
        tb.add_line_to_stream line il = .ok tb2 →
        tb2.factors = tb.factors ++ [tb.emittedFactor line il]) := by
  refine ⟨?_, ?_, ?_⟩
  · intro hj hs
    have hig : (decide (tb.text_align ≠ "j") || false
        || decide ((line.get_widths).2 = 0)) = false := by
      simp [hj, hs]
    unfold PDFTextBase.emittedFactor
    dsimp only
    rw [hig]
    simp only [Bool.false_eq_true, if_false]
    constructor
    · split <;> ring_nf
    · split <;> (field_simp; try ring)
  · intro hd
    rcases hd with hd | hd <;> simp [PDFTextBase.emittedFactor, hd]
  · intro il tb2 h
    exact add_line_to_stream_factors tb line il tb2 h

/-- Witness for C3_emitted_factor_exact at a concrete justified line: the
scenario state tbC3 is justified, the line "A B" has spaces width 6 ≠ 0, and
the theorem's equality instantiates to 12 + 6·factor = 30. -/
theorem C3_emitted_factor_exact_witness :
    tbC3.text_align = "j" ∧ (lineW.get_widths).2 ≠ 0 ∧
    (lineW.get_widths).1 + (lineW.get_widths).2 * (tbC3.emittedFactor lineW false)
      = tbC3.width - tbC3.list_indent
        - (if ¬ tbC3.started ∧ tbC3.is_first_line then tbC3.indent else 0) := by
  have hw : lineW.get_widths = (12, 6) := by with_unfolding_all rfl
  have hs : (lineW.get_widths).2 ≠ 0 := by rw [hw]; norm_num
  exact ⟨rfl, hs, ((C3_emitted_factor_exact tbC3 lineW).1 rfl hs).2⟩

/-- Claim C4 (evaluation at the failing input): with a height budget of 5pt
(below the 11pt first-line height), the layout call returns finished false
with zero committed lines — but the resumption cursor is not left at the
block start: last_part_index has been advanced to 1 (it is set to
part_index + 1 on every accepted word, before the line is ever committed), so
a subsequent call would resume past the whole part and re-emit nothing of
it. -/
theorem C4_failed_run_advances_cursor :
    ((tbC4.run).map (fun p => (p.1, p.2.lines.length, p.2.last_part_index,
      p.2.last_word_index, p.2.finished))) = .ok (false, 0, 1, 0, false) := by
  with_unfolding_all rfl

/-- Claim C5 (evaluation at the failing input): parsing the string content
"a\x0ab" (one embedded line break) raises instead of splitting into runs
with a break marker: after the first segment is stored, the loop body for
the second segment evaluates `self.elements.append(...)`, and `elements` is
an attribute never assigned anywhere in the class, so the parse aborts with
AttributeError — no segment ever inherits the anchor-id list. -/
theorem C5_embedded_break_raises :
    recursiveContentParse 1000 fixFonts none (.strC "a\x0ab") TEXT_DEFAULTS [] []
      = .error "AttributeError: PDFText object has no attribute elements" := by
  with_unfolding_all rfl

/-- Claim C6 (evaluation at the failing input): on an active line, feeding
"A", space, "B", space, space returns statuses added, added, preadded,
added, added — the fifth call (the second consecutive space) is accepted
instead of ignored, and the committed tokens end with two space tokens,
because is_last_word_space is set to False when a word arrives but is never
reset to True when a space is accepted. -/
theorem C6_second_space_not_collapsed :
    (c6run.map (fun p => (p.1, p.2.lineWords))) =
      .ok (["added", "added", "preadded", "added", "added"],
        ["A", " ", "B", " ", " "]) := by
  with_unfolding_all rfl

/-- Claim C7: when the current line's height at the line-height multiplier
plus the cumulative height exceeds the height budget, add_current_line
returns False and the whole state is returned unchanged — the committed
lines, cumulative height, text stream, graphics stream and used-font set are
all untouched, and no exception is raised (the result is a normal value, not
an error). -/
theorem C7_overflow_commit_mutates_nothing (tb : PDFTextBase) (is_last : Bool)
    (h : tb.current_line.height * tb.line_height + tb.current_height > tb.height) :
    tb.add_current_line is_last = .ok (false, tb) := by
  unfold PDFTextBase.add_current_line
  rw [if_pos h]
  rfl

/-- Witness for C7_overflow_commit_mutates_nothing: a state with a 10pt line
(11pt at the 1.1 multiplier) and a 5pt budget. -/
theorem C7_overflow_commit_mutates_nothing_witness :
    tbC7.current_line.height * tbC7.line_height + tbC7.current_height > tbC7.height
    ∧ tbC7.add_current_line true = .ok (false, tbC7) := by
  have h : tbC7.current_line.height * tbC7.line_height + tbC7.current_height
      > tbC7.height := by
    have h1 : tbC7.current_line.height = 10 := by with_unfolding_all rfl
    have h2 : tbC7.line_height = 11/10 := by with_unfolding_all rfl
    have h3 : tbC7.current_height = 0 := by with_unfolding_all rfl
    have h4 : tbC7.height = 5 := by with_unfolding_all rfl
    rw [h1, h2, h3, h4]; norm_num
  exact ⟨h, C7_overflow_commit_mutates_nothing tbC7 true h⟩

/-- Claim C8: compare emits exactly the directives of the changed groups.
For any state whose font entry resolves, compare equals the
specification-side compareSpec, which emits the font-select directive iff
the prior is absent or differs in font family, font mode or size, the color
directive iff the prior is absent or the color differs, and the
baseline-rise directive iff the prior is absent or the rise differs; each
directive is a nonempty string, and when a prior is present that agrees on
all three groups, compare returns the empty string. -/
theorem C8_compare_directive_groups (a : PDFState) (prior : Option PDFState)
    (entry : FontEntry) (h : a.fontEntry = some entry) :
    a.compare prior = .ok (compareSpec a prior entry.ref)
    ∧ fontSelectDirective entry.ref a.size ≠ ""
    ∧ colorDirective a.color ≠ ""
    ∧ riseDirective a.rise ≠ ""
    ∧ (∀ b, prior = some b → a.font_family = b.font_family →
        a.font_mode = b.font_mode → a.size = b.size → a.color = b.color →
        a.rise = b.rise → a.compare prior = .ok "") := by
  obtain ⟨fam, hfam, hmode⟩ := Option.bind_eq_some.mp h
  have hmain : a.compare prior = .ok (compareSpec a prior entry.ref) := by
    cases prior with
    | none =>
      simp only [PDFState.compare, compareSpec, fontGroupChanged,
        colorGroupChanged, riseGroupChanged, fontSelectDirective,
        colorDirective, riseDirective, hfam, hmode, orKeyErr, okBind, pureOk,
        if_true]
      rfl
    | some b =>
      simp only [PDFState.compare, compareSpec, fontGroupChanged,
        colorGroupChanged, riseGroupChanged, fontSelectDirective,
        colorDirective, riseDirective]
      by_cases hF : a.font_family ≠ b.font_family ∨ a.font_mode ≠ b.font_mode ∨
        a.size ≠ b.size
      · have hFb : (decide (a.font_family ≠ b.font_family)
            || decide (a.font_mode ≠ b.font_mode)
            || decide (a.size ≠ b.size)) = true := by
          rcases hF with h1 | h1 | h1 <;> simp [h1]
        rw [hFb]
        by_cases hC : a.color ≠ b.color <;> by_cases hR : a.rise ≠ b.rise <;>
          · simp only [hC, hR, hfam, hmode, orKeyErr, okBind, pureOk,
              if_true, if_false, decide_eq_true_eq, ite_true, ite_false]
            first
            | rfl
            | simp [hC, hR]
      · have hFb : (decide (a.font_family ≠ b.font_family)
            || decide (a.font_mode ≠ b.font_mode)
            || decide (a.size ≠ b.size)) = false := by
          push_neg at hF
          simp [hF.1, hF.2.1, hF.2.2]
        rw [hFb]
        by_cases hC : a.color ≠ b.color <;> by_cases hR : a.rise ≠ b.rise <;>
          · simp only [Bool.false_eq_true, if_false, okBind, pureOk]
            first
            | rfl
            | simp [hC, hR]
  refine ⟨hmain, ?_, ?_, ?_, ?_⟩
  · unfold fontSelectDirective
    exact append_ne_empty_right _ " Tf" (by decide)
  · unfold colorDirective
    exact append_ne_empty_left " " _ (by decide)
  · unfold riseDirective
    exact append_ne_empty_right _ " Ts" (by decide)
  · intro b hb h1 h2 h3 h4 h5
    subst hb
    rw [hmain]
    simp [compareSpec, fontGroupChanged, colorGroupChanged, riseGroupChanged,
      h1, h2, h3, h4, h5]

/-- Witness for C8_compare_directive_groups: the fixture state resolves to
the fixture entry, and compare with no prior emits the full spec-side
directive string. -/
theorem C8_compare_directive_groups_witness :
    stateFix.fontEntry = some entryFix
    ∧ stateFix.compare none = .ok (compareSpec stateFix none entryFix.ref) := by
  have h : stateFix.fontEntry = some entryFix := by with_unfolding_all rfl
  exact ⟨h, (C8_compare_directive_groups stateFix none entryFix h).1⟩

/-- Claim C9: PDF.create_text always raises TypeError, for every content and
every combination of optional arguments, because the call
`PDFText(content, self.fonts_data, **style)` passes the fonts table
positionally into the width parameter while the expanded style dict also
supplies width as a keyword; PDF.text, which goes through create_text,
propagates the same error, so no text can ever be laid out through these
entry points. -/
theorem C9_create_text_always_type_error (pdf : PDFDoc) (content : PContent)
    (width height : Option ℚ) (text_align : Option String)
    (line_height : Option ℚ) (indent : ℚ) (move : String) :
    pdf.create_text content width height text_align line_height indent
      = .error "TypeError: got multiple values for argument width"
    ∧ pdf.text content width height text_align line_height indent move
      = .error "TypeError: got multiple values for argument width" :=
  ⟨rfl, rfl⟩

/-- Claim C10: on any line part whose width table covers the word (expressed
as get_word_width succeeding), add_word followed by pop_word with no index
returns the word and restores the part exactly — words list, word width and
spaces width included — since the widths are exact rationals. -/
theorem C10_add_then_pop_is_identity (p : PDFTextLinePart) (w : String) (ww : ℚ)
    (h : p.get_word_width w = .ok ww) :
    (p.add_word w).bind (fun p2 => p2.pop_word none) = .ok (some w, p) := by
  by_cases hw : w = " "
  · subst hw
    unfold PDFTextLinePart.add_word PDFTextLinePart.pop_word
    simp [Except.bind, pure, Except.pure, add_sub_cancel_right]
  · unfold PDFTextLinePart.add_word PDFTextLinePart.pop_word
    rw [if_neg hw]
    have h2 : PDFTextLinePart.get_word_width
        { p with words := p.words ++ [w], width := p.width + ww } w = .ok ww := h
    simp [Except.bind, pure, Except.pure, bind, Except.instMonad, h, h2, hw,
      add_sub_cancel_right]

/-- Witness for C10_add_then_pop_is_identity: the fixture part covers "AB"
(width 12pt), and adding then popping it returns the word and the original
part. -/
theorem C10_add_then_pop_is_identity_witness :
    partFix.get_word_width "AB" = .ok 12
    ∧ (partFix.add_word "AB").bind (fun p2 => p2.pop_word none)
      = .ok (some "AB", partFix) := by
  have h : partFix.get_word_width "AB" = .ok 12 := by with_unfolding_all rfl
  exact ⟨h, C10_add_then_pop_is_identity partFix "AB" 12 h⟩

end Pdfme
